import Mathlib

/-!
Verification development for a small library-management REST backend
(Django/DRF).  The definitions below are a shallow embedding of the
source files `api/models.py`, `api/views.py`, `api/serializers.py`,
`api/exceptions.py`, `api/renderers.py` and `api/urls.py`:
database rows become Lean structures, the store becomes explicit state
passing, and raised framework exceptions become an `Except` error channel
that is then flattened exactly the way `custom_exception_handler` does.
-/

namespace Library

/-! ## Data model (`api/models.py`)

`Member` and `Book` rows.  `Book.status` is stored as a string (a
`CharField` with choices `available` / `borrowed`), matching the string
comparisons in the handlers.  `Book.borrower` is a nullable foreign key
stored as the referenced member's primary key. -/

structure Member where
  id : Nat
  name : String
  email : String
  address : String
  phone : String
  deriving Repr, DecidableEq

structure Book where
  id : Nat
  title : String
  author : String
  published_year : Int
  status : String
  borrower : Option Nat
  deriving Repr, DecidableEq

/-- The relational store: the `Member` and `Book` tables. -/
structure Store where
  members : List Member
  books : List Book
  deriving Repr, DecidableEq

/-- `Book.objects.get(id=pk)` / `self.get_object()`: first row with that pk. -/
def getBook (s : Store) (pk : Nat) : Option Book :=
  s.books.find? (fun b => b.id = pk)

/-- `Member.objects.get(id=mid)`. -/
def getMember (s : Store) (mid : Nat) : Option Member :=
  s.members.find? (fun m => m.id = mid)

/-- `book.save()`: overwrite the row with the same primary key. -/
def saveBook (s : Store) (b : Book) : Store :=
  { s with books := s.books.map (fun x => if x.id = b.id then b else x) }

/-- A freshly created `Book` row: `status` defaults to `'available'` and
`borrower` to null (`models.py`, `Book.status` / `Book.borrower`). -/
def newBook (id : Nat) (title author : String) (published_year : Int) : Book :=
  { id := id, title := title, author := author,
    published_year := published_year, status := "available", borrower := none }

/-- `on_delete=models.SET_NULL` on `Book.borrower` (`models.py`): deleting a
member removes the member row and nulls the `borrower` field of every book
that referenced it; no other book field is touched. -/
def deleteMember (s : Store) (mid : Nat) : Store :=
  { members := s.members.filter (fun m => m.id ≠ mid),
    books := s.books.map (fun b =>
      if b.borrower = some mid then { b with borrower := none } else b) }

/-! ## Error structures and flattening (`api/exceptions.py`)

DRF hands `custom_exception_handler` a `response.data` that is a dict of
field → message-or-list-of-messages, or a list, or a scalar.  The handler
flattens that into a flat list of strings. -/

/-- A dict value: either a list of messages or a single scalar message. -/
inductive ErrVal where
  | many (msgs : List String)
  | one (msg : String)
  deriving Repr, DecidableEq

/-- The error structure reaching the exception handler. -/
inductive ErrData where
  | dict (entries : List (String × ErrVal))
  | list (msgs : List String)
  | scalar (msg : String)
  deriving Repr, DecidableEq

/-- One dict entry's contribution, following the two branches of the loop
body in `custom_exception_handler`: each message from a list value, or the
lone scalar value, qualified as `"field: message"` unless the field is
`non_field_errors` or `detail`. -/
def entryMessages : String × ErrVal → List String
  | (field, .many msgs) =>
      msgs.map (fun message =>
        if field = "non_field_errors" ∨ field = "detail" then message
        else field ++ ": " ++ message)
  | (field, .one msg) =>
      if field = "non_field_errors" ∨ field = "detail" then [msg]
      else [field ++ ": " ++ msg]

/-- `custom_exception_handler`'s flattening of `response.data` into
`error_messages`, accumulating left to right exactly as the Python loop
does. -/
def flattenErrors : ErrData → List String
  | .dict entries => entries.foldl (fun acc e => acc ++ entryMessages e) []
  | .list msgs => msgs
  | .scalar msg => [msg]

/-! ## Exceptions raised by the handlers (`api/views.py`)

Each raised exception, with the `response.data` DRF builds for it and the
HTTP status code of the resulting response:
* `ValidationError({field: [msgs]})` → 400, dict data;
* `ValidationError('msg')` → 400, data is the one-element list `['msg']`;
* `AuthenticationFailed('msg')` → 401, data `{'detail': 'msg'}`;
* `Http404` from `get_object()` → 404, data `{'detail': 'Not found.'}`. -/

inductive Exc where
  | validationFields (entries : List (String × List String))
  | validationMsg (msg : String)
  | authFailed (msg : String)
  | http404
  deriving Repr, DecidableEq

def Exc.code : Exc → Nat
  | .validationFields _ => 400
  | .validationMsg _ => 400
  | .authFailed _ => 401
  | .http404 => 404

def Exc.data : Exc → ErrData
  | .validationFields entries =>
      .dict (entries.map (fun e => (e.1, ErrVal.many e.2)))
  | .validationMsg msg => .list [msg]
  | .authFailed msg => .dict [("detail", ErrVal.one msg)]
  | .http404 => .dict [("detail", ErrVal.one "Not found.")]

/-! ## Borrow / return actions (`BookViewSet.borrow`, `BookViewSet.return_book`) -/

/-- Python truthiness of `request.data.get('member_id')`: `not member_id`
is true when the key is absent (`None`) and also when the value is falsy,
e.g. the integer `0`. -/
def pyFalsyNat : Option Nat → Bool
  | none => true
  | some n => n = 0

/-- `BookViewSet.borrow` before exception handling: the raised exception,
or the updated book together with the store after `book.save()`. -/
def borrowRaw (s : Store) (pk : Nat) (member_id : Option Nat) :
    Except Exc (Book × Store) :=
  match getBook s pk with
  | none => .error .http404
  | some book =>
    if pyFalsyNat member_id then
      .error (.validationFields [("member_id", ["This field is required."])])
    else
      match getMember s (member_id.getD 0) with
      | none =>
          .error (.validationFields [("member_id", ["Member does not exist."])])
      | some member =>
          if book.status ≠ "available" then
            .error (.validationMsg "This book is already borrowed.")
          else
            let book' := { book with status := "borrowed",
                                     borrower := some member.id }
            .ok (book', saveBook s book')

/-- `BookViewSet.return_book` before exception handling. -/
def returnRaw (s : Store) (pk : Nat) : Except Exc (Book × Store) :=
  match getBook s pk with
  | none => .error .http404
  | some book =>
    if book.status ≠ "borrowed" then
      .error (.validationMsg "This book is not currently borrowed.")
    else
      let book' := { book with status := "available", borrower := none }
      .ok (book', saveBook s book')

/-- An HTTP response after the exception handler ran: a success carrying
the serialized book, or an error carrying the flattened message list. -/
inductive BookResponse where
  | ok (code : Nat) (book : Book)
  | err (code : Nat) (errors : List String)
  deriving Repr, DecidableEq

/-- The borrow endpoint end to end: handler plus exception flattening.
Mutating the store only on success (a raised exception aborts before
`save()`). -/
def borrow (s : Store) (pk : Nat) (member_id : Option Nat) :
    BookResponse × Store :=
  match borrowRaw s pk member_id with
  | .ok (b, s') => (.ok 200 b, s')
  | .error e => (.err e.code (flattenErrors e.data), s)

/-- The return endpoint end to end. -/
def returnBook (s : Store) (pk : Nat) : BookResponse × Store :=
  match returnRaw s pk with
  | .ok (b, s') => (.ok 200 b, s')
  | .error e => (.err e.code (flattenErrors e.data), s)

/-- The book the borrow action writes on success
(`book.status = 'borrowed'; book.borrower = member`). -/
def borrowedBook (b : Book) (m : Member) : Book :=
  { b with status := "borrowed", borrower := some m.id }

/-- The book the return action writes on success
(`book.status = 'available'; book.borrower = None`). -/
def returnedBook (b : Book) : Book :=
  { b with status := "available", borrower := none }

/-! ## Interleaved execution of two borrow calls (`BookViewSet.borrow`)

`borrow` performs `book = self.get_object()` (a read of the book row),
then the `member_id` truthiness check, the `Member.objects.get` lookup (a
read of the members table, which no borrow call ever writes), the
availability check against the in-memory snapshot from its own earlier
read, and finally `book.save()` (a write); nothing in the handler wraps
the sequence in a transaction or compare-and-set, so with two concurrent
requests each primitive store operation is atomic but the
read-check-write sequence is not.  `borrowFromSnapshot` is the whole tail
of the handler after the `get_object()` read: it keeps every check of
`views.py` lines 116-134, evaluating the member lookup against the store
as it stands when the handler resumes and the availability check against
the snapshot. -/

def borrowFromSnapshot (snap : Option Book) (member_id : Option Nat)
    (s : Store) : Option Book × Store :=
  match snap with
  | none => (none, s)
  | some book =>
    if pyFalsyNat member_id then (none, s)
    else
      match getMember s (member_id.getD 0) with
      | none => (none, s)
      | some member =>
        if book.status ≠ "available" then (none, s)
        else (some (borrowedBook book member), saveBook s (borrowedBook book member))

/-- The interleaving read₁, read₂, rest₁, rest₂ of two borrow calls on the
same book: both handlers snapshot the book row before either runs its
remaining checks and write.  Each component result is `some` updated book
on a 200, `none` on an error response. -/
def borrowRace (s : Store) (pk : Nat) (mid₁ mid₂ : Option Nat) :
    Option Book × Option Book × Store :=
  let snap₁ := getBook s pk
  let snap₂ := getBook s pk
  let (r₁, s₁) := borrowFromSnapshot snap₁ mid₁ s
  let (r₂, s₂) := borrowFromSnapshot snap₂ mid₂ s₁
  (r₁, r₂, s₂)

/-- The serialized schedule: the second handler only reads the book row
after the first handler's write has been applied. -/
def borrowSerial (s : Store) (pk : Nat) (mid₁ mid₂ : Option Nat) :
    Option Book × Option Book × Store :=
  let (r₁, s₁) := borrowFromSnapshot (getBook s pk) mid₁ s
  let (r₂, s₂) := borrowFromSnapshot (getBook s₁ pk) mid₂ s₁
  (r₁, r₂, s₂)

/-! ## Login (`api/views.py`, `login`) -/

/-- Python truthiness of `request.data.get('username')`: `not username` is
true when the key is absent (`None`) and when the value is the empty
string. -/
def pyFalsyStr : Option String → Bool
  | none => true
  | some s => s = ""

/-- One registered auth user: credentials and primary key. -/
structure AuthUser where
  username : String
  password : String
  id : Nat
  deriving Repr, DecidableEq

/-- The auth backend state: the user table, the token table
(`rest_framework.authtoken`, one row per user), and the key the token
generator would mint next. -/
structure AuthDb where
  users : List AuthUser
  tokens : List (Nat × String)
  freshKey : String
  deriving Repr, DecidableEq

/-- `django.contrib.auth.authenticate(username=..., password=...)`:
the user whose username and password both match, if any. -/
def authenticate (db : AuthDb) (username password : String) : Option AuthUser :=
  db.users.find? (fun u => u.username = username ∧ u.password = password)

inductive LoginResult where
  | fieldRequired (field : String)
  | invalidCredentials
  | ok (token : String)
  deriving Repr, DecidableEq

/-- The `login` view: required-field checks (Python truthiness), then
`authenticate`, then `Token.objects.get_or_create(user=user)` — reuse the
user's existing token row or insert a fresh one. -/
def login (db : AuthDb) (username password : Option String) :
    LoginResult × AuthDb :=
  if pyFalsyStr username then (.fieldRequired "username", db)
  else if pyFalsyStr password then (.fieldRequired "password", db)
  else
    match authenticate db (username.getD "") (password.getD "") with
    | none => (.invalidCredentials, db)
    | some user =>
      match db.tokens.find? (fun t => t.1 = user.id) with
      | some t => (.ok t.2, db)
      | none => (.ok db.freshKey,
          { db with tokens := (user.id, db.freshKey) :: db.tokens })

/-- A login HTTP response after exception handling: 400/401 with flattened
errors, or 200 with the token payload. -/
inductive LoginResponse where
  | ok (code : Nat) (token : String)
  | err (code : Nat) (errors : List String)
  deriving Repr, DecidableEq

/-- The exception each `LoginResult` error raises in the view
(`ValidationError({field: ['This field is required.']})` or
`AuthenticationFailed('Invalid credentials.')`). -/
def loginHttp (db : AuthDb) (username password : Option String) :
    LoginResponse × AuthDb :=
  match login db username password with
  | (.fieldRequired f, db') =>
      let e : Exc := .validationFields [(f, ["This field is required."])]
      (.err e.code (flattenErrors e.data), db')
  | (.invalidCredentials, db') =>
      let e : Exc := .authFailed "Invalid credentials."
      (.err e.code (flattenErrors e.data), db')
  | (.ok token, db') => (.ok 200 token, db')

/-! ## Member email validation (`MemberSerializer.validate_email`) -/

/-- `validate_email`: on create (`self.instance is None`) reject when
`Member.objects.filter(email=value).exists()`; on update reject when
`Member.objects.filter(email=value).exclude(id=self.instance.id).exists()`.
Returns the raised message or the validated value. -/
def validate_email (members : List Member) (self_instance : Option Member)
    (value : String) : Except String String :=
  match self_instance with
  | none =>
    if members.any (fun m => m.email = value) then
      .error "A member with this email already exists."
    else .ok value
  | some inst =>
    if members.any (fun m => m.email = value ∧ m.id ≠ inst.id) then
      .error "A member with this email already exists."
    else .ok value

/-! ## Response envelope (`StandardizedResponseRenderer.render`) -/

/-- The rendered wrapper `{code, status, data}`. -/
structure Enveloped (α : Type) where
  code : Nat
  status : String
  data : α
  deriving Repr, DecidableEq

/-- `response.status_text.replace('_', ' ')`: the pattern and the
replacement are single characters, so the substring replace acts
character by character. -/
def underscoresToSpaces (s : String) : String :=
  ⟨s.data.map (fun c => if c = '_' then ' ' else c)⟩

/-- `str.upper()` on the (ASCII) status text: uppercase character by
character. -/
def pyUpper (s : String) : String :=
  ⟨s.data.map Char.toUpper⟩

/-- `StandardizedResponseRenderer.render`: wrap the payload, with
`code` the HTTP status code and `status` the HTTP status text after
`.replace('_', ' ').upper()`. -/
def render (α : Type) (data : α) (status_code : Nat) (status_text : String) :
    Enveloped α :=
  { code := status_code,
    status := pyUpper (underscoresToSpaces status_text),
    data := data }

/-! ## Routing (`api/urls.py` and the DRF router)

`DefaultRouter` exposes an extra `@action(detail=True)` method of a
registered viewset at `<prefix>/<pk>/<url_path>/`, where `url_path`
defaults to the decorated method's name when the decorator passes none —
this is the DRF `action` default, and the repository's own tests exercise
`/api/books/<id>/return_book/`. -/

def actionUrlPath (methodName : String) (urlPath : Option String) : String :=
  urlPath.getD methodName

def detailActionRoute (routePrefix pkSegment urlPath : String) : String :=
  routePrefix ++ "/" ++ pkSegment ++ "/" ++ urlPath ++ "/"

/-- The route the router generates for `BookViewSet.return_book`
(registered under prefix `books`, `@action(detail=True, methods=['post'])`
with no explicit `url_path`). -/
def returnBookRoute : String :=
  detailActionRoute "books" "{pk}" (actionUrlPath "return_book" none)

/-- The route generated for `BookViewSet.borrow`. -/
def borrowRoute : String :=
  detailActionRoute "books" "{pk}" (actionUrlPath "borrow" none)

/-! ## The invariant of §3 and concrete fixtures -/

/-- The spec's Book invariant: `status == 'borrowed'` iff `borrower` is
not null. -/
def bookInv (b : Book) : Prop := b.status = "borrowed" ↔ b.borrower ≠ none

/-- Fixture member, mirroring the test fixtures. -/
def exMember : Member :=
  { id := 1, name := "John Doe", email := "john@example.com",
    address := "123 Main St", phone := "555-1234" }

/-- Fixture available book. -/
def exAvailable : Book :=
  { id := 1, title := "Available Book", author := "Test Author",
    published_year := 2023, status := "available", borrower := none }

/-- Fixture borrowed book, borrowed by `exMember`. -/
def exBorrowed : Book :=
  { id := 2, title := "Borrowed Book", author := "Test Author",
    published_year := 2022, status := "borrowed", borrower := some 1 }

/-- Fixture store. -/
def exStore : Store := { members := [exMember], books := [exAvailable, exBorrowed] }

/-- A second fixture member, for the two-request race. -/
def exMember2 : Member :=
  { id := 5, name := "Jane Roe", email := "jane@example.com",
    address := "9 Side St", phone := "555-9999" }

/-- Fixture store for the race: both racing members are registered. -/
def exStoreRace : Store :=
  { members := [exMember, exMember2], books := [exAvailable, exBorrowed] }

/-! ## Helper lemmas -/

theorem mem_saveBook {s : Store} {c b : Book} (h : b ∈ (saveBook s c).books) :
    b = c ∨ b ∈ s.books := by
  unfold saveBook at h
  simp only [List.mem_map] at h
  obtain ⟨a, ha, hfa⟩ := h
  by_cases hid : a.id = c.id
  · rw [if_pos hid] at hfa; exact Or.inl hfa.symm
  · rw [if_neg hid] at hfa; exact Or.inr (hfa ▸ ha)

theorem find?_update {l : List Book} {pk : Nat} {b : Book}
    (h : l.find? (fun x => x.id = pk) = some b) (c : Book) (hc : c.id = b.id) :
    (l.map (fun x => if x.id = c.id then c else x)).find? (fun x => x.id = pk) =
      some c := by
  have hbid : b.id = pk := by simpa using List.find?_some h
  have hcpk : c.id = pk := by rw [hc, hbid]
  induction l with
  | nil => simp at h
  | cons hd tl ih =>
    by_cases hhd : hd.id = pk
    · rw [List.map_cons]
      by_cases h2 : hd.id = c.id
      · rw [if_pos h2]
        exact List.find?_cons_of_pos _ (by simpa using hcpk)
      · exact absurd (hhd.trans hcpk.symm) h2
    · rw [List.find?_cons_of_neg _ (by simpa using hhd)] at h
      rw [List.map_cons]
      have h2 : hd.id ≠ c.id := fun hx => hhd (hx.trans hcpk)
      rw [if_neg h2]
      rw [List.find?_cons_of_neg _ (by simpa using hhd)]
      exact ih h

theorem getBook_saveBook_same {s : Store} {pk : Nat} {b : Book}
    (h : getBook s pk = some b) (c : Book) (hc : c.id = b.id) :
    getBook (saveBook s c) pk = some c := by
  unfold getBook saveBook
  exact find?_update h c hc

theorem borrow_book_missing {s : Store} {pk : Nat} (mid : Option Nat)
    (h : getBook s pk = none) :
    borrow s pk mid = (.err 404 ["Not found."], s) := by
  unfold borrow borrowRaw
  rw [h]
  rfl

theorem borrow_mid_falsy {s : Store} {pk : Nat} {mid : Option Nat} {b : Book}
    (h : getBook s pk = some b) (hf : pyFalsyNat mid = true) :
    borrow s pk mid = (.err 400 ["member_id: This field is required."], s) := by
  unfold borrow borrowRaw
  rw [h]
  simp [hf, flattenErrors, Exc.data, Exc.code, entryMessages]

theorem borrow_member_missing {s : Store} {pk : Nat} {mid : Option Nat} {b : Book}
    (h : getBook s pk = some b) (hf : pyFalsyNat mid = false)
    (hm : getMember s (mid.getD 0) = none) :
    borrow s pk mid = (.err 400 ["member_id: Member does not exist."], s) := by
  unfold borrow borrowRaw
  rw [h]
  simp [hf, hm, flattenErrors, Exc.data, Exc.code, entryMessages]

theorem borrow_not_available {s : Store} {pk : Nat} {mid : Option Nat}
    {b : Book} {m : Member}
    (h : getBook s pk = some b) (hf : pyFalsyNat mid = false)
    (hm : getMember s (mid.getD 0) = some m) (hs : b.status ≠ "available") :
    borrow s pk mid = (.err 400 ["This book is already borrowed."], s) := by
  unfold borrow borrowRaw
  rw [h]
  simp [hf, hm, hs, flattenErrors, Exc.data, Exc.code]

theorem borrow_success {s : Store} {pk : Nat} {mid : Option Nat}
    {b : Book} {m : Member}
    (h : getBook s pk = some b) (hf : pyFalsyNat mid = false)
    (hm : getMember s (mid.getD 0) = some m) (hs : b.status = "available") :
    borrow s pk mid = (.ok 200 (borrowedBook b m), saveBook s (borrowedBook b m)) := by
  unfold borrow borrowRaw
  rw [h]
  simp [hf, hm, hs, borrowedBook]

theorem return_book_missing {s : Store} {pk : Nat} (h : getBook s pk = none) :
    returnBook s pk = (.err 404 ["Not found."], s) := by
  unfold returnBook returnRaw
  rw [h]
  rfl

theorem return_not_borrowed {s : Store} {pk : Nat} {b : Book}
    (h : getBook s pk = some b) (hs : b.status ≠ "borrowed") :
    returnBook s pk = (.err 400 ["This book is not currently borrowed."], s) := by
  unfold returnBook returnRaw
  rw [h]
  simp [hs, flattenErrors, Exc.data, Exc.code]

theorem return_success {s : Store} {pk : Nat} {b : Book}
    (h : getBook s pk = some b) (hs : b.status = "borrowed") :
    returnBook s pk = (.ok 200 (returnedBook b), saveBook s (returnedBook b)) := by
  unfold returnBook returnRaw
  rw [h]
  simp [hs, returnedBook]

theorem borrow_store_shape (s : Store) (pk : Nat) (mid : Option Nat) :
    (borrow s pk mid).2 = s ∨
    ∃ b m, getBook s pk = some b ∧ b.status = "available" ∧
      (borrow s pk mid).2 = saveBook s (borrowedBook b m) := by
  cases hg : getBook s pk with
  | none => exact Or.inl (by rw [borrow_book_missing mid hg])
  | some b =>
    cases hf : pyFalsyNat mid with
    | true => exact Or.inl (by rw [borrow_mid_falsy hg hf])
    | false =>
      cases hm : getMember s (mid.getD 0) with
      | none => exact Or.inl (by rw [borrow_member_missing hg hf hm])
      | some m =>
        by_cases hs : b.status = "available"
        · exact Or.inr ⟨b, m, rfl, hs, by rw [borrow_success hg hf hm hs]⟩
        · exact Or.inl (by rw [borrow_not_available hg hf hm hs])

theorem borrow_ok_shape {s : Store} {pk : Nat} {mid : Option Nat} {code : Nat}
    {b : Book} {s₂ : Store} (h : borrow s pk mid = (.ok code b, s₂)) :
    code = 200 ∧ b.status = "borrowed" ∧ b.borrower ≠ none := by
  cases hg : getBook s pk with
  | none => rw [borrow_book_missing mid hg] at h; exact absurd h (by simp)
  | some bk =>
    cases hf : pyFalsyNat mid with
    | true => rw [borrow_mid_falsy hg hf] at h; exact absurd h (by simp)
    | false =>
      cases hm : getMember s (mid.getD 0) with
      | none => rw [borrow_member_missing hg hf hm] at h; exact absurd h (by simp)
      | some m =>
        by_cases hs : bk.status = "available"
        · rw [borrow_success hg hf hm hs] at h
          have h1 := congrArg Prod.fst h
          simp only [BookResponse.ok.injEq] at h1
          obtain ⟨hcode, hb⟩ := h1
          refine ⟨hcode.symm, ?_, ?_⟩
          · rw [← hb]; rfl
          · rw [← hb]; simp [borrowedBook]
        · rw [borrow_not_available hg hf hm hs] at h; exact absurd h (by simp)

theorem return_store_shape (s : Store) (pk : Nat) :
    (returnBook s pk).2 = s ∨
    ∃ b, getBook s pk = some b ∧ b.status = "borrowed" ∧
      (returnBook s pk).2 = saveBook s (returnedBook b) := by
  cases hg : getBook s pk with
  | none => exact Or.inl (by rw [return_book_missing hg])
  | some b =>
    by_cases hs : b.status = "borrowed"
    · exact Or.inr ⟨b, rfl, hs, by rw [return_success hg hs]⟩
    · exact Or.inl (by rw [return_not_borrowed hg hs])

theorem return_ok_shape {s : Store} {pk : Nat} {code : Nat} {b : Book}
    {s₂ : Store} (h : returnBook s pk = (.ok code b, s₂)) :
    code = 200 ∧ b.status = "available" ∧ b.borrower = none := by
  cases hg : getBook s pk with
  | none => rw [return_book_missing hg] at h; exact absurd h (by simp)
  | some bk =>
    by_cases hs : bk.status = "borrowed"
    · rw [return_success hg hs] at h
      have h1 := congrArg Prod.fst h
      simp only [BookResponse.ok.injEq] at h1
      obtain ⟨hcode, hb⟩ := h1
      exact ⟨hcode.symm, by rw [← hb]; rfl, by rw [← hb]; rfl⟩
    · rw [return_not_borrowed hg hs] at h; exact absurd h (by simp)

/-- `saveBook` writes only the books table, so member lookups are
unaffected by any borrow call's write. -/
theorem getMember_saveBook (s : Store) (c : Book) (mid : Nat) :
    getMember (saveBook s c) mid = getMember s mid := rfl

/-- Faithfulness of the snapshot decomposition for a single request:
running the handler tail on a snapshot just read from the current store is
the borrow endpoint itself — the resulting stores agree, and the tail
yields `some` exactly at the 200 responses, with the same updated book. -/
theorem borrowFromSnapshot_single (s : Store) (pk : Nat) (mid : Option Nat) :
    (borrowFromSnapshot (getBook s pk) mid s).2 = (borrow s pk mid).2 ∧
    ∀ b, (borrowFromSnapshot (getBook s pk) mid s).1 = some b ↔
      (borrow s pk mid).1 = .ok 200 b := by
  cases hg : getBook s pk with
  | none =>
    rw [borrow_book_missing mid hg]
    exact ⟨rfl, fun b => by simp [borrowFromSnapshot]⟩
  | some bk =>
    cases hf : pyFalsyNat mid with
    | true =>
      rw [borrow_mid_falsy hg hf]
      constructor
      · unfold borrowFromSnapshot
        simp [hf]
      · intro b
        unfold borrowFromSnapshot
        simp [hf]
    | false =>
      cases hm : getMember s (mid.getD 0) with
      | none =>
        rw [borrow_member_missing hg hf hm]
        constructor
        · unfold borrowFromSnapshot
          simp [hf, hm]
        · intro b
          unfold borrowFromSnapshot
          simp [hf, hm]
      | some m =>
        by_cases hs : bk.status = "available"
        · rw [borrow_success hg hf hm hs]
          constructor
          · unfold borrowFromSnapshot
            simp [hf, hm, hs]
          · intro b
            unfold borrowFromSnapshot
            simp [hf, hm, hs]
        · rw [borrow_not_available hg hf hm hs]
          constructor
          · unfold borrowFromSnapshot
            simp [hf, hm, hs]
          · intro b
            unfold borrowFromSnapshot
            simp [hf, hm, hs]

/-! ## The claims -/

/-- C1 (counterexample): a `member_id` that is present in the request body
but falsy — the integer `0` — hits the Python truthiness check
`if not member_id` first, so the response is the required-field error even
though the field is present and no member with id 0 exists; the claim's
stated order would demand the `Member does not exist.` error here. -/
theorem borrow_falsy_member_id_cex :
    getBook exStore 1 = some exAvailable ∧
    (some 0 : Option Nat) ≠ none ∧
    getMember exStore 0 = none ∧
    (borrow exStore 1 (some 0)).1 =
      .err 400 ["member_id: This field is required."] ∧
    (borrow exStore 1 (some 0)).1 ≠
      .err 400 ["member_id: Member does not exist."] := by
  refine ⟨rfl, by decide, rfl, rfl, by decide⟩

/-- C1 (amended): the borrow checks run in order — book exists (else 404),
`member_id` present *and not falsy* (else 400 `member_id: This field is
required.`; Python's `if not member_id` also fires on a present falsy value
such as `0`), referenced member exists (else 400 `member_id: Member does
not exist.`), book available (else 400 `This book is already borrowed.`);
on success the book becomes borrowed by the member, is persisted, and the
response is 200 with the updated book. -/
theorem borrow_case_analysis (s : Store) (pk : Nat) (mid : Option Nat) :
    (getBook s pk = none → borrow s pk mid = (.err 404 ["Not found."], s)) ∧
    (∀ b, getBook s pk = some b →
      (pyFalsyNat mid = true →
        borrow s pk mid = (.err 400 ["member_id: This field is required."], s)) ∧
      (pyFalsyNat mid = false → getMember s (mid.getD 0) = none →
        borrow s pk mid = (.err 400 ["member_id: Member does not exist."], s)) ∧
      (∀ m, pyFalsyNat mid = false → getMember s (mid.getD 0) = some m →
        b.status ≠ "available" →
        borrow s pk mid = (.err 400 ["This book is already borrowed."], s)) ∧
      (∀ m, pyFalsyNat mid = false → getMember s (mid.getD 0) = some m →
        b.status = "available" →
        borrow s pk mid =
          (.ok 200 (borrowedBook b m), saveBook s (borrowedBook b m)))) := by
  refine ⟨fun h => borrow_book_missing mid h, fun b hb => ⟨?_, ?_, ?_, ?_⟩⟩
  · exact fun hf => borrow_mid_falsy hb hf
  · exact fun hf hm => borrow_member_missing hb hf hm
  · exact fun m hf hm hs => borrow_not_available hb hf hm hs
  · exact fun m hf hm hs => borrow_success hb hf hm hs

/-- Witness for `borrow_case_analysis`: borrowing the fixture available
book for the fixture member succeeds and persists the update. -/
theorem borrow_case_analysis_witness :
    borrow exStore 1 (some 1) =
      (.ok 200 (borrowedBook exAvailable exMember),
       saveBook exStore (borrowedBook exAvailable exMember)) :=
  ((borrow_case_analysis exStore 1 (some 1)).2 exAvailable rfl).2.2.2
    exMember rfl rfl rfl

/-- C2: a freshly created book is available with no borrower and satisfies
the invariant `status == 'borrowed' ↔ borrower ≠ null`; a successful borrow
response always carries a borrowed book with a non-null borrower, a
successful return always an available book with a null borrower, and both
dedicated actions map a store of invariant-satisfying books to a store of
invariant-satisfying books. -/
theorem book_invariant_preserved :
    (∀ id title author year, bookInv (newBook id title author year)) ∧
    (∀ s pk mid code b s₂, borrow s pk mid = (.ok code b, s₂) →
        b.status = "borrowed" ∧ b.borrower ≠ none) ∧
    (∀ s pk code b s₂, returnBook s pk = (.ok code b, s₂) →
        b.status = "available" ∧ b.borrower = none) ∧
    (∀ s pk mid, (∀ b ∈ s.books, bookInv b) →
        ∀ b' ∈ (borrow s pk mid).2.books, bookInv b') ∧
    (∀ s pk, (∀ b ∈ s.books, bookInv b) →
        ∀ b' ∈ (returnBook s pk).2.books, bookInv b') := by
  refine ⟨?_, ?_, ?_, ?_, ?_⟩
  · intro id title author year
    simp [bookInv, newBook]
  · intro s pk mid code b s₂ h
    exact (borrow_ok_shape h).2
  · intro s pk code b s₂ h
    exact (return_ok_shape h).2
  · intro s pk mid hinv b' hb'
    rcases borrow_store_shape s pk mid with h | ⟨b, m, _, _, h⟩
    · rw [h] at hb'; exact hinv b' hb'
    · rw [h] at hb'
      rcases mem_saveBook hb' with rfl | hmem
      · simp [bookInv, borrowedBook]
      · exact hinv b' hmem
  · intro s pk hinv b' hb'
    rcases return_store_shape s pk with h | ⟨b, _, _, h⟩
    · rw [h] at hb'; exact hinv b' hb'
    · rw [h] at hb'
      rcases mem_saveBook hb' with rfl | hmem
      · simp [bookInv, returnedBook]
      · exact hinv b' hmem

/-- Witness for `book_invariant_preserved`: the book returned by a concrete
successful borrow is borrowed with a non-null borrower. -/
theorem book_invariant_preserved_witness :
    (borrowedBook exAvailable exMember).status = "borrowed" ∧
    (borrowedBook exAvailable exMember).borrower ≠ none :=
  book_invariant_preserved.2.1 exStore 1 (some 1) 200
    (borrowedBook exAvailable exMember)
    (saveBook exStore (borrowedBook exAvailable exMember)) rfl

/-- C3: the return action — 404 when the book does not exist; 400 with
`This book is not currently borrowed.` when its status is not `borrowed`;
otherwise the book becomes available with no borrower, the change is
persisted, and the response is 200 with the updated book. -/
theorem return_case_analysis (s : Store) (pk : Nat) :
    (getBook s pk = none → returnBook s pk = (.err 404 ["Not found."], s)) ∧
    (∀ b, getBook s pk = some b →
      (b.status ≠ "borrowed" →
        returnBook s pk = (.err 400 ["This book is not currently borrowed."], s)) ∧
      (b.status = "borrowed" →
        returnBook s pk = (.ok 200 (returnedBook b), saveBook s (returnedBook b)))) :=
  ⟨fun h => return_book_missing h,
   fun _ hb => ⟨fun hs => return_not_borrowed hb hs,
                fun hs => return_success hb hs⟩⟩

/-- Witness for `return_case_analysis`: returning the fixture borrowed book
succeeds and persists the update. -/
theorem return_case_analysis_witness :
    returnBook exStore 2 =
      (.ok 200 (returnedBook exBorrowed), saveBook exStore (returnedBook exBorrowed)) :=
  ((return_case_analysis exStore 2).2 exBorrowed rfl).2 rfl


/-- C4 (counterexample): at a store holding both requested members and an
available book, under the read₁-read₂-rest₁-rest₂ interleaving of two
borrow calls every check of both handlers passes — the member lookups
succeed and each availability check runs against its own pre-write
snapshot — so both calls succeed; the claim that at most one can succeed
fails on this code, which wraps the read-check-write sequence in no
transaction or compare-and-set. -/
theorem borrow_race_cex :
    getBook exStoreRace 1 = some exAvailable ∧
    exAvailable.status = "available" ∧
    getMember exStoreRace 1 = some exMember ∧
    getMember exStoreRace 5 = some exMember2 ∧
    (borrowRace exStoreRace 1 (some 1) (some 5)).1 =
      some (borrowedBook exAvailable exMember) ∧
    (borrowRace exStoreRace 1 (some 1) (some 5)).2.1 =
      some (borrowedBook exAvailable exMember2) :=
  ⟨rfl, rfl, rfl, rfl, rfl, rfl⟩

/-- C4 (amended): the borrow read-check-write sequence is not atomic — for
two borrow requests whose `member_id`s are present, non-falsy and name
existing members, in the interleaving where both requests read the book
row before either writes, both calls on the same available book succeed
(the second writer's member ends up as borrower); only under serialized
execution does exactly one succeed while the other fails. -/
theorem borrow_race_not_atomic (s : Store) (pk : Nat) (mid₁ mid₂ : Option Nat)
    (m₁ m₂ : Member) (b : Book)
    (hb : getBook s pk = some b) (hav : b.status = "available")
    (hf₁ : pyFalsyNat mid₁ = false) (hf₂ : pyFalsyNat mid₂ = false)
    (hm₁ : getMember s (mid₁.getD 0) = some m₁)
    (hm₂ : getMember s (mid₂.getD 0) = some m₂) :
    (borrowRace s pk mid₁ mid₂).1 = some (borrowedBook b m₁) ∧
    (borrowRace s pk mid₁ mid₂).2.1 = some (borrowedBook b m₂) ∧
    (borrowSerial s pk mid₁ mid₂).1 = some (borrowedBook b m₁) ∧
    (borrowSerial s pk mid₁ mid₂).2.1 = none := by
  have hsave : getBook (saveBook s (borrowedBook b m₁)) pk =
      some (borrowedBook b m₁) :=
    getBook_saveBook_same hb _ rfl
  have hm₂' : getMember (saveBook s (borrowedBook b m₁)) (mid₂.getD 0) =
      some m₂ := by
    rw [getMember_saveBook]
    exact hm₂
  have hsnap₁ : borrowFromSnapshot (some b) mid₁ s =
      (some (borrowedBook b m₁), saveBook s (borrowedBook b m₁)) := by
    unfold borrowFromSnapshot
    simp [hf₁, hm₁, hav]
  have hsnap₂ : borrowFromSnapshot (some b) mid₂ (saveBook s (borrowedBook b m₁)) =
      (some (borrowedBook b m₂),
       saveBook (saveBook s (borrowedBook b m₁)) (borrowedBook b m₂)) := by
    unfold borrowFromSnapshot
    simp [hf₂, hm₂', hav]
  have hsnap₃ : borrowFromSnapshot (some (borrowedBook b m₁)) mid₂
      (saveBook s (borrowedBook b m₁)) = (none, saveBook s (borrowedBook b m₁)) := by
    unfold borrowFromSnapshot
    simp only [hf₂, Bool.false_eq_true, if_false, hm₂']
    rw [if_pos (by simp [borrowedBook])]
  refine ⟨?_, ?_, ?_, ?_⟩
  · simp [borrowRace, hb, hsnap₁, hsnap₂]
  · simp [borrowRace, hb, hsnap₁, hsnap₂]
  · simp [borrowSerial, hb, hsnap₁, hsave, hsnap₃]
  · simp [borrowSerial, hb, hsnap₁, hsave, hsnap₃]

/-- Witness for `borrow_race_not_atomic` at the race fixture store, where
both requested members exist. -/
theorem borrow_race_not_atomic_witness :
    (borrowRace exStoreRace 1 (some 1) (some 5)).1 =
      some (borrowedBook exAvailable exMember) ∧
    (borrowRace exStoreRace 1 (some 1) (some 5)).2.1 =
      some (borrowedBook exAvailable exMember2) ∧
    (borrowSerial exStoreRace 1 (some 1) (some 5)).1 =
      some (borrowedBook exAvailable exMember) ∧
    (borrowSerial exStoreRace 1 (some 1) (some 5)).2.1 = none :=
  borrow_race_not_atomic exStoreRace 1 (some 1) (some 5) exMember exMember2
    exAvailable rfl rfl rfl rfl rfl rfl

/-- Field qualification as the claim words it: the bare message for the
`non_field_errors` and `detail` buckets, `"field: message"` otherwise. -/
def qualify (field msg : String) : String :=
  if field = "non_field_errors" ∨ field = "detail" then msg
  else field ++ ": " ++ msg

/-- The messages held by a dict value. -/
def ErrVal.msgs : ErrVal → List String
  | .many l => l
  | .one m => [m]

/-- The flattening as the claim describes it: one output string per
message, qualified per field, fields in order, always a flat list. -/
def specFlatten : ErrData → List String
  | .dict entries => (entries.map (fun e => e.2.msgs.map (qualify e.1))).flatten
  | .list msgs => msgs
  | .scalar msg => [msg]

theorem entryMessages_eq (e : String × ErrVal) :
    entryMessages e = e.2.msgs.map (qualify e.1) := by
  obtain ⟨f, v⟩ := e
  cases v with
  | many l => rfl
  | one m =>
    show (if f = "non_field_errors" ∨ f = "detail" then [m]
          else [f ++ ": " ++ m]) = [qualify f m]
    unfold qualify
    by_cases h : f = "non_field_errors" ∨ f = "detail"
    · rw [if_pos h, if_pos h]
    · rw [if_neg h, if_neg h]

theorem foldl_append_eq_flatten {α β : Type} (f : α → List β) (l : List α)
    (acc : List β) :
    l.foldl (fun a x => a ++ f x) acc = acc ++ (l.map f).flatten := by
  induction l generalizing acc with
  | nil => simp
  | cons h t ih => simp [ih, List.append_assoc]

/-- C5: the exception handler's flattening agrees with the claim's
description — each message contributes exactly one string (qualified with
`"field: "` except for the `non_field_errors` and `detail` buckets), the
output is a flat list, and its length is the total number of messages in
a dict-shaped error structure. -/
theorem flattenErrors_spec (e : ErrData) :
    flattenErrors e = specFlatten e ∧
    ∀ entries, e = .dict entries →
      (flattenErrors e).length =
        (entries.map (fun p => p.2.msgs.length)).sum := by
  have hmain : flattenErrors e = specFlatten e := by
    cases e with
    | dict entries =>
      show entries.foldl (fun acc x => acc ++ entryMessages x) [] =
        (entries.map (fun x => x.2.msgs.map (qualify x.1))).flatten
      rw [show (fun acc x => acc ++ entryMessages x) =
            (fun acc x => acc ++ x.2.msgs.map (qualify x.1)) from
          funext fun acc => funext fun x => by rw [entryMessages_eq]]
      rw [foldl_append_eq_flatten (fun x => x.2.msgs.map (qualify x.1)) entries []]
      rfl
    | list msgs => rfl
    | scalar msg => rfl
  refine ⟨hmain, ?_⟩
  rintro entries rfl
  rw [hmain]
  show ((entries.map (fun x => x.2.msgs.map (qualify x.1))).flatten).length = _
  rw [List.length_flatten, List.map_map]
  have hfun : (List.length ∘ fun x : String × ErrVal => (x.2.msgs).map (qualify x.1)) =
      fun p : String × ErrVal => p.2.msgs.length := by
    funext x
    simp [Function.comp]
  rw [hfun]

/-- Witness for `flattenErrors_spec`: on a concrete dict with a
field-scoped list, a `detail` entry and a `non_field_errors` entry the
handler output matches the claim-side flattening and counts one string per
message. -/
theorem flattenErrors_spec_witness :
    flattenErrors
        (.dict [("email", .many ["bad", "dup"]), ("detail", .one "oops"),
                ("non_field_errors", .many ["x"])]) =
      ["email: bad", "email: dup", "oops", "x"] ∧
    (flattenErrors
        (.dict [("email", .many ["bad", "dup"]), ("detail", .one "oops"),
                ("non_field_errors", .many ["x"])])).length = 4 := by
  have h := flattenErrors_spec
    (.dict [("email", .many ["bad", "dup"]), ("detail", .one "oops"),
            ("non_field_errors", .many ["x"])])
  exact ⟨(h.1.trans (by rfl)), (h.2 _ rfl).trans (by rfl)⟩

theorem login_username_falsy {db : AuthDb} {u p : Option String}
    (hu : pyFalsyStr u = true) :
    loginHttp db u p = (.err 400 ["username: This field is required."], db) := by
  unfold loginHttp login
  rw [if_pos hu]
  rfl

theorem login_password_falsy {db : AuthDb} {u p : Option String}
    (hu : pyFalsyStr u = false) (hp : pyFalsyStr p = true) :
    loginHttp db u p = (.err 400 ["password: This field is required."], db) := by
  unfold loginHttp login
  rw [if_neg (by simp [hu]), if_pos hp]
  rfl

theorem login_bad_credentials {db : AuthDb} {u p : Option String}
    (hu : pyFalsyStr u = false) (hp : pyFalsyStr p = false)
    (ha : authenticate db (u.getD "") (p.getD "") = none) :
    loginHttp db u p = (.err 401 ["Invalid credentials."], db) := by
  unfold loginHttp login
  rw [if_neg (by simp [hu]), if_neg (by simp [hp]), ha]
  rfl

theorem login_token_reused {db : AuthDb} {u p : Option String}
    {user : AuthUser} {tok : Nat × String}
    (hu : pyFalsyStr u = false) (hp : pyFalsyStr p = false)
    (ha : authenticate db (u.getD "") (p.getD "") = some user)
    (ht : db.tokens.find? (fun t => t.1 = user.id) = some tok) :
    loginHttp db u p = (.ok 200 tok.2, db) := by
  unfold loginHttp login
  rw [if_neg (by simp [hu]), if_neg (by simp [hp]), ha]
  dsimp only
  rw [ht]

theorem login_token_created {db : AuthDb} {u p : Option String}
    {user : AuthUser}
    (hu : pyFalsyStr u = false) (hp : pyFalsyStr p = false)
    (ha : authenticate db (u.getD "") (p.getD "") = some user)
    (ht : db.tokens.find? (fun t => t.1 = user.id) = none) :
    loginHttp db u p =
      (.ok 200 db.freshKey,
       { db with tokens := (user.id, db.freshKey) :: db.tokens }) := by
  unfold loginHttp login
  rw [if_neg (by simp [hu]), if_neg (by simp [hp]), ha]
  dsimp only
  rw [ht]

/-- C6: the login checks run in the view's order — a missing (or empty,
by Python truthiness) username yields 400 `username: This field is
required.`; then a missing password yields 400 `password: This field is
required.`; then a pair that does not authenticate yields 401
`Invalid credentials.`; a valid pair yields 200 with a token, reusing the
user's existing token row when one exists and minting and storing a fresh
key otherwise. -/
theorem login_case_analysis (db : AuthDb) (u p : Option String) :
    (pyFalsyStr u = true →
      loginHttp db u p = (.err 400 ["username: This field is required."], db)) ∧
    (pyFalsyStr u = false → pyFalsyStr p = true →
      loginHttp db u p = (.err 400 ["password: This field is required."], db)) ∧
    (pyFalsyStr u = false → pyFalsyStr p = false →
      authenticate db (u.getD "") (p.getD "") = none →
      loginHttp db u p = (.err 401 ["Invalid credentials."], db)) ∧
    (∀ user, pyFalsyStr u = false → pyFalsyStr p = false →
      authenticate db (u.getD "") (p.getD "") = some user →
      (∀ tok, db.tokens.find? (fun t => t.1 = user.id) = some tok →
        loginHttp db u p = (.ok 200 tok.2, db)) ∧
      (db.tokens.find? (fun t => t.1 = user.id) = none →
        loginHttp db u p =
          (.ok 200 db.freshKey,
           { db with tokens := (user.id, db.freshKey) :: db.tokens }))) :=
  ⟨fun hu => login_username_falsy hu,
   fun hu hp => login_password_falsy hu hp,
   fun hu hp ha => login_bad_credentials hu hp ha,
   fun _ hu hp ha =>
     ⟨fun _ ht => login_token_reused hu hp ha ht,
      fun ht => login_token_created hu hp ha ht⟩⟩

/-- Fixture auth database: one user with an already-issued token. -/
def exAuthDb : AuthDb :=
  { users := [{ username := "alice", password := "pw", id := 1 }],
    tokens := [(1, "tok1")], freshKey := "fresh" }

/-- Witness for `login_case_analysis`: a valid pair reuses the existing
token. -/
theorem login_case_analysis_witness :
    loginHttp exAuthDb (some "alice") (some "pw") = (.ok 200 "tok1", exAuthDb) :=
  ((login_case_analysis exAuthDb (some "alice") (some "pw")).2.2.2
      { username := "alice", password := "pw", id := 1 } rfl rfl rfl).1
    (1, "tok1") rfl

/-- C7: email validation — a create is rejected exactly when some existing
member already has the submitted email; an update of member `inst` is
rejected exactly when some member other than `inst` has it; and when
emails are unique in the store, resubmitting `inst`'s own email on update
is accepted. -/
theorem validate_email_spec (members : List Member) (value : String) :
    (validate_email members none value =
        .error "A member with this email already exists." ↔
      ∃ m ∈ members, m.email = value) ∧
    (validate_email members none value = .ok value ↔
      ¬ ∃ m ∈ members, m.email = value) ∧
    (∀ inst, validate_email members (some inst) value =
        .error "A member with this email already exists." ↔
      ∃ m ∈ members, m.email = value ∧ m.id ≠ inst.id) ∧
    (∀ inst, inst ∈ members →
      (∀ m ∈ members, m.email = inst.email → m.id = inst.id) →
      validate_email members (some inst) inst.email = .ok inst.email) := by
  refine ⟨?_, ?_, ?_, ?_⟩
  · unfold validate_email
    by_cases h : members.any (fun m => m.email = value)
    · simp only [if_pos h]
      simp only [List.any_eq_true, decide_eq_true_eq] at h
      simpa using h
    · simp only [if_neg h]
      simp only [List.any_eq_true, decide_eq_true_eq] at h
      constructor
      · intro hx; exact absurd hx (by simp)
      · intro hx; exact absurd hx h
  · unfold validate_email
    by_cases h : members.any (fun m => m.email = value)
    · simp only [if_pos h]
      simp only [List.any_eq_true, decide_eq_true_eq] at h
      constructor
      · intro hx; exact absurd hx (by simp)
      · intro hx; exact absurd h hx
    · simp only [if_neg h]
      simp only [List.any_eq_true, decide_eq_true_eq] at h
      simpa using h
  · intro inst
    unfold validate_email
    by_cases h : members.any (fun m => m.email = value ∧ m.id ≠ inst.id)
    · simp only [if_pos h]
      simp only [List.any_eq_true, decide_eq_true_eq] at h
      simpa using h
    · simp only [if_neg h]
      simp only [List.any_eq_true, decide_eq_true_eq] at h
      constructor
      · intro hx; exact absurd hx (by simp)
      · intro hx; exact absurd hx h
  · intro inst hmem huniq
    unfold validate_email
    dsimp only
    have hcond :
        (members.any fun m => decide (m.email = inst.email ∧ m.id ≠ inst.id)) =
          false := by
      simp only [List.any_eq_false, decide_eq_true_eq]
      rintro m hm ⟨he, hne⟩
      exact hne (huniq m hm he)
    rw [hcond]
    rfl

/-- Witness for `validate_email_spec`: resubmitting a member's own email
on update is accepted in a store where that member is the only holder of
the email. -/
theorem validate_email_spec_witness :
    validate_email [exMember] (some exMember) exMember.email =
      .ok exMember.email :=
  (validate_email_spec [exMember] exMember.email).2.2.2 exMember
    (by decide) (by decide)

theorem toNat_ofNatAux {n : Nat} (h : n.isValidChar) :
    (Char.ofNatAux n h).toNat = n := by
  simp [Char.ofNatAux, Char.toNat, UInt32.toNat]

theorem toUpper_ne_underscore {c : Char} (h : c ≠ '_') :
    Char.toUpper c ≠ '_' := by
  simp only [Char.toUpper]
  split
  · intro hc
    rename_i hcond
    have hvalid : (c.toNat - 32).isValidChar := Or.inl (by omega)
    rw [show Char.ofNat (c.toNat - 32) = Char.ofNatAux _ hvalid from
      dif_pos hvalid] at hc
    have hn := congrArg Char.toNat hc
    rw [toNat_ofNatAux hvalid] at hn
    have h95 : ('_' : Char).toNat = 95 := by decide
    rw [h95] at hn
    omega
  · exact h

/-- The claim-side formatting of the status text: the HTTP status text
uppercased, with underscores replaced by spaces. -/
def specStatusText (s : String) : String := underscoresToSpaces (pyUpper s)

/-- C8: the renderer wraps every payload as `{code, status, data}` with
`code` the HTTP status code, `data` the payload unchanged, and `status`
the status text uppercased with underscores replaced by spaces (the code
replaces before uppercasing; the two orders agree on every string). -/
theorem render_envelope (α : Type) (d : α) (c : Nat) (t : String) :
    (render α d c t).code = c ∧
    (render α d c t).data = d ∧
    (render α d c t).status = specStatusText t := by
  refine ⟨rfl, rfl, ?_⟩
  show pyUpper (underscoresToSpaces t) = underscoresToSpaces (pyUpper t)
  unfold pyUpper underscoresToSpaces
  simp only [List.map_map]
  have hfun : (Char.toUpper ∘ fun c => if c = '_' then ' ' else c) =
      ((fun c => if c = '_' then ' ' else c) ∘ Char.toUpper) := by
    funext c
    simp only [Function.comp_apply]
    by_cases h : c = '_'
    · subst h; decide
    · rw [if_neg h, if_neg (toUpper_ne_underscore h)]
  rw [hfun]

/-- C9 (counterexample): the DRF router exposes the `return_book` action at
`books/{pk}/return_book/` — the method name is the default `url_path` —
not at the spec's `books/{pk}/return/`. -/
theorem return_route_cex :
    returnBookRoute ≠ "books/{pk}/return/" ∧
    returnBookRoute = "books/{pk}/return_book/" :=
  ⟨by decide, rfl⟩

/-- C9 (amended): the return action is exposed at
POST `/books/{id}/return_book/` (the action's default `url_path` is the
method name), and a POST there for a borrowed book yields 200 with the
updated book. -/
theorem return_route_behavior (s : Store) (pk : Nat) (b : Book)
    (hb : getBook s pk = some b) (hs : b.status = "borrowed") :
    returnBookRoute = "books/{pk}/return_book/" ∧
    returnBook s pk = (.ok 200 (returnedBook b), saveBook s (returnedBook b)) :=
  ⟨rfl, return_success hb hs⟩

/-- Witness for `return_route_behavior` at the fixture store. -/
theorem return_route_behavior_witness :
    returnBookRoute = "books/{pk}/return_book/" ∧
    returnBook exStore 2 =
      (.ok 200 (returnedBook exBorrowed),
       saveBook exStore (returnedBook exBorrowed)) :=
  return_route_behavior exStore 2 exBorrowed rfl rfl

/-- C10: deleting a member who is the borrower of a borrowed book nulls
that book's `borrower` (the `SET_NULL` foreign-key policy) while leaving
its `status` — and every other field — unchanged, so the resulting row has
`status == 'borrowed'` and `borrower == null`, violating the invariant. -/
theorem deleteMember_clears_borrower (s : Store) (mid : Nat) (b : Book)
    (hb : b ∈ s.books) (hbor : b.borrower = some mid)
    (hst : b.status = "borrowed") :
    { b with borrower := none } ∈ (deleteMember s mid).books ∧
    ({ b with borrower := none }).status = "borrowed" ∧
    ({ b with borrower := none }).borrower = none ∧
    ¬ bookInv { b with borrower := none } := by
  refine ⟨?_, hst, rfl, ?_⟩
  · unfold deleteMember
    simp only [List.mem_map]
    exact ⟨b, hb, by rw [if_pos hbor]⟩
  · intro hinv
    have : ({ b with borrower := none } : Book).borrower ≠ none :=
      hinv.mp hst
    exact this rfl

/-- Witness for `deleteMember_clears_borrower`: deleting the fixture
member leaves the fixture borrowed book borrowed with a null borrower. -/
theorem deleteMember_clears_borrower_witness :
    { exBorrowed with borrower := none } ∈ (deleteMember exStore 1).books ∧
    ({ exBorrowed with borrower := none }).status = "borrowed" ∧
    ({ exBorrowed with borrower := none }).borrower = none ∧
    ¬ bookInv { exBorrowed with borrower := none } :=
  deleteMember_clears_borrower exStore 1 exBorrowed (by decide) rfl rfl

end Library
